import Mathlib

/-!
Verification development for `main.py`, a question-answering engine over an
in-memory sales table.

The engine (`answer_question`) tries four regular-expression templates in a
fixed order against the question string via `re.search` with `re.IGNORECASE`,
and runs a pandas aggregation for the first template that matches.  We embed
the four concrete patterns as executable matchers that reproduce `re.search`
semantics for these patterns: leftmost starting position, case-insensitive
literal text, greedy character-class captures with backtracking.  Character
classes are modelled on their ASCII fragment.  Numeric sales values are
modelled as rationals; Python `int()` is truncation toward zero and Python
`round(x, 2)` is round-half-to-even at two decimal places.
-/

/-- A calendar date, as produced by `pd.to_datetime` for the `date` field. -/
structure Date where
  year : Nat
  month : Nat
  day : Nat
deriving DecidableEq

/-- One row of the sales table (one record of `q-fastapi-llm-query.json`). -/
structure SalesRecord where
  product : String
  city : String
  region : String
  rep : String
  sales : ℚ
  date : Date
deriving DecidableEq

/-- The answer value returned by the engine: Python int, float, or str. -/
inductive Answer where
  | int (n : ℤ)
  | num (q : ℚ)
  | str (s : String)
deriving DecidableEq

/-- Regex class `\w` (ASCII fragment): letters, digits, underscore. -/
def isWordChar (c : Char) : Bool :=
  c.isAlpha || c.isDigit || c == '_'

/-- Regex class `\s` (ASCII fragment): space, tab, newline, CR, VT, FF. -/
def isSpaceChar (c : Char) : Bool :=
  c == ' ' || c == '\t' || c == '\n' || c == '\r' || c == Char.ofNat 11 || c == Char.ofNat 12

/-- Character class `[\w\s]` (region captures, and the city capture of
pattern 4 in the source). -/
def isWordSpaceChar (c : Char) : Bool := isWordChar c || isSpaceChar c

/-- Character class of the rep capture of pattern 4: word characters,
whitespace, period, apostrophe (codepoint 39), hyphen. -/
def isRepChar (c : Char) : Bool :=
  isWordSpaceChar c || c == '.' || c == Char.ofNat 39 || c == '-'

/-- Case-insensitive match of the literal `lit` at the head of `cs`
(`re.IGNORECASE` literal text); returns the remainder on success. -/
def stripLitCI : List Char → List Char → Option (List Char)
  | [], cs => some cs
  | _ :: _, [] => none
  | l :: ls, c :: cs => if c.toLower == l.toLower then stripLitCI ls cs else none

/-- Does the input start with the literal `?` that ends every pattern? -/
def startsWithQ : List Char → Bool
  | c :: _ => c == '?'
  | [] => false

/-- Greedy one-or-more capture of characters in class `p` (regex `X+`):
the maximal run, which must be non-empty; returns (capture, rest). -/
def takeClass (p : Char → Bool) (cs : List Char) : Option (List Char × List Char) :=
  if (cs.takeWhile p).isEmpty then none else some (cs.takeWhile p, cs.dropWhile p)

/-- `re.search`: try the pattern at every starting position, leftmost first. -/
def searchAux {α : Type} (m : List Char → Option α) : List Char → Option α
  | [] => m []
  | c :: cs =>
    match m (c :: cs) with
    | some r => some r
    | none => searchAux m cs

/-- Pattern 1 at a fixed position:
`What is the total sales of (\w+) in (\w+)\?` (IGNORECASE).
The `\w+` captures cannot backtrack: a shorter capture leaves a word
character where the following literal needs a space (resp. the final `?`),
so the greedy capture is exactly the maximal `\w` run. -/
def matchP1At (cs : List Char) : Option (String × String) :=
  match stripLitCI "What is the total sales of ".data cs with
  | none => none
  | some r1 =>
    match takeClass isWordChar r1 with
    | none => none
    | some (g1, r2) =>
      match stripLitCI " in ".data r2 with
      | none => none
      | some r3 =>
        match takeClass isWordChar r3 with
        | none => none
        | some (g2, r4) =>
          if startsWithQ r4 then some (g1.asString, g2.asString) else none

/-- Pattern 1 of `answer_question`: `re.search` over the question. -/
def matchP1 (q : String) : Option (String × String) := searchAux matchP1At q.data

/-- Pattern 2 at a fixed position:
`How many sales reps are there in ([\w\s]+)\?` (IGNORECASE).
`?` is outside the class, so the greedy capture is the maximal run. -/
def matchP2At (cs : List Char) : Option String :=
  match stripLitCI "How many sales reps are there in ".data cs with
  | none => none
  | some r1 =>
    match takeClass isWordSpaceChar r1 with
    | none => none
    | some (g, r2) =>
      if startsWithQ r2 then some g.asString else none

/-- Pattern 2 of `answer_question`. -/
def matchP2 (q : String) : Option String := searchAux matchP2At q.data

/-- Pattern 3 at a fixed position:
`What is the average sales for (\w+) in ([\w\s]+)\?` (IGNORECASE). -/
def matchP3At (cs : List Char) : Option (String × String) :=
  match stripLitCI "What is the average sales for ".data cs with
  | none => none
  | some r1 =>
    match takeClass isWordChar r1 with
    | none => none
    | some (g1, r2) =>
      match stripLitCI " in ".data r2 with
      | none => none
      | some r3 =>
        match takeClass isWordSpaceChar r3 with
        | none => none
        | some (g2, r4) =>
          if startsWithQ r4 then some (g1.asString, g2.asString) else none

/-- Pattern 3 of `answer_question`. -/
def matchP3 (q : String) : Option (String × String) := searchAux matchP3At q.data

/-- Tail of pattern 4 after the rep capture: the literal
` make the highest sale in ` then `([\w\s]+)` then `?`. -/
def matchP4Tail (cs : List Char) : Option String :=
  match stripLitCI " make the highest sale in ".data cs with
  | none => none
  | some r1 =>
    match takeClass isWordSpaceChar r1 with
    | none => none
    | some (g, r2) =>
      if startsWithQ r2 then some g.asString else none

/-- Greedy backtracking over the rep capture `([\w\s.\x27-]+)` of pattern 4:
`rev` holds the current candidate capture reversed, `suf` the rest of the
input; longer candidates are tried first, as the regex engine does. -/
def matchP4Go : List Char → List Char → Option (String × String)
  | [], _ => none
  | c :: rev, suf =>
    match matchP4Tail suf with
    | some city => some (((c :: rev).reverse).asString, city)
    | none => matchP4Go rev (c :: suf)

/-- Pattern 4 at a fixed position:
`On what date did ([\w\s.\x27-]+) make the highest sale in ([\w\s]+)\?`
(IGNORECASE).  The rep class overlaps the following literal, so genuine
backtracking over prefixes of the maximal run is required. -/
def matchP4At (cs : List Char) : Option (String × String) :=
  match stripLitCI "On what date did ".data cs with
  | none => none
  | some r1 => matchP4Go (r1.takeWhile isRepChar).reverse (r1.dropWhile isRepChar)

/-- Pattern 4 of `answer_question`. -/
def matchP4 (q : String) : Option (String × String) := searchAux matchP4At q.data

/-- Message of pattern 4 on an empty filtered subset (main.py line 77). -/
def noDataMsg : String := "No sales data found for this rep in this city."

/-- Fallback message when no template matches (main.py line 79). -/
def cannotAnswerMsg : String := "Sorry, I can\x27t answer that question."

/-- Answer of `handle_query` when the DataFrame is empty (main.py line 94). -/
def datasetErrorMsg : String := "Error: Dataset not loaded."

/-- The fixed identifying string constant of `handle_query`. -/
def email_address : String := "22f3003185@ds.study.iitm.ac.in"

/-- Python `int()` on a numeric value: truncation toward zero
(`Int.div` is T-division and the denominator of a `Rat` is positive). -/
def pyInt (x : ℚ) : ℤ := Int.tdiv x.num (x.den : ℤ)

/-- Floor of a rational (`Int.fdiv` rounds toward negative infinity). -/
def ratFloor (x : ℚ) : ℤ := Int.fdiv x.num (x.den : ℤ)

/-- Python `round()` to an integer: round-half-to-even. -/
def roundHalfEven (x : ℚ) : ℤ :=
  if x - ratFloor x < 1 / 2 then ratFloor x
  else if x - ratFloor x > 1 / 2 then ratFloor x + 1
  else if ratFloor x % 2 = 0 then ratFloor x else ratFloor x + 1

/-- Python `round(x, 2)`: two decimal places. -/
def round2 (x : ℚ) : ℚ := (roundHalfEven (100 * x) : ℚ) / 100

/-- `['sales'].sum()` over a list of rows (0 on the empty list). -/
def sumSales (l : List SalesRecord) : ℚ := (l.map SalesRecord.sales).sum

/-- `df[(df['product'] == product) & (df['city'] == city)]` (pattern 1). -/
def filterProductCity (store : List SalesRecord) (product city : String) : List SalesRecord :=
  store.filter (fun r => r.product == product && r.city == city)

/-- `df[df['region'] == region]` (pattern 2). -/
def filterRegion (store : List SalesRecord) (region : String) : List SalesRecord :=
  store.filter (fun r => r.region == region)

/-- `df[(df['product'] == product) & (df['region'] == region)]` (pattern 3). -/
def filterProductRegion (store : List SalesRecord) (product region : String) : List SalesRecord :=
  store.filter (fun r => r.product == product && r.region == region)

/-- `df[(df['rep'] == rep) & (df['city'] == city)]` (pattern 4). -/
def filterRepCity (store : List SalesRecord) (rep city : String) : List SalesRecord :=
  store.filter (fun r => r.rep == rep && r.city == city)

/-- `['rep'].nunique()`: number of distinct rep values of the rows. -/
def nuniqueRep (l : List SalesRecord) : Nat := ((l.map SalesRecord.rep).dedup).length

/-- `subset.loc[subset['sales'].idxmax()]`: the first row attaining the
maximal sales value, in store order; `none` on the empty list. -/
def maxRow : List SalesRecord → Option SalesRecord
  | [] => none
  | r :: rs =>
    match maxRow rs with
    | none => some r
    | some m => if r.sales < m.sales then some m else some r

/-- Zero-pad a numeral to two digits (strftime month and day fields). -/
def pad2 (n : Nat) : String := if n < 10 then "0" ++ toString n else toString n

/-- Zero-pad a numeral to four digits (strftime year field). -/
def pad4 (n : Nat) : String :=
  if n < 10 then "000" ++ toString n
  else if n < 100 then "00" ++ toString n
  else if n < 1000 then "0" ++ toString n
  else toString n

/-- `.strftime('%Y-%m-%d')`. -/
def formatDate (d : Date) : String :=
  pad4 d.year ++ "-" ++ pad2 d.month ++ "-" ++ pad2 d.day

/-- Aggregation of pattern 1: `int(...['sales'].sum())`. -/
def template1Answer (store : List SalesRecord) (product city : String) : Answer :=
  .int (pyInt (sumSales (filterProductCity store product city)))

/-- Aggregation of pattern 2: `int(...['rep'].nunique())`. -/
def template2Answer (store : List SalesRecord) (region : String) : Answer :=
  .int ((nuniqueRep (filterRegion store region) : ℤ))

/-- Aggregation of pattern 3: `round(mean, 2) if not isna(mean) else 0`;
the mean is NaN exactly when the filtered subset is empty. -/
def template3Answer (store : List SalesRecord) (product region : String) : Answer :=
  if (filterProductRegion store product region).isEmpty then .int 0
  else
    .num (round2 (sumSales (filterProductRegion store product region) /
      ((filterProductRegion store product region).length : ℚ)))

/-- Aggregation of pattern 4: date of the first maximal-sales row, or the
no-data message on an empty subset. -/
def template4Answer (store : List SalesRecord) (rep city : String) : Answer :=
  match maxRow (filterRepCity store rep city) with
  | some r => .str (formatDate r.date)
  | none => .str noDataMsg

/-- `answer_question` of main.py: the four templates tried in order; the
first match wins; otherwise the fallback message. -/
def answer_question (question : String) (store : List SalesRecord) : Answer :=
  match matchP1 question with
  | some (product, city) => template1Answer store product city
  | none =>
    match matchP2 question with
    | some region => template2Answer store region
    | none =>
      match matchP3 question with
      | some (product, region) => template3Answer store product region
      | none =>
        match matchP4 question with
        | some (rep, city) => template4Answer store rep city
        | none => .str cannotAnswerMsg

/-- The response body built by `handle_query`: the empty-store guard, then
`answer_question`; paired with the fixed email field. -/
def handle_query (q : String) (store : List SalesRecord) : Answer × String :=
  if store.isEmpty then (.str datasetErrorMsg, email_address)
  else (answer_question q store, email_address)

/-- The concrete scenario of the specification: two Widget sales by
Jane Doe in Boston (East region), 100 on 2024-01-05 and 250 on 2024-02-10. -/
def witnessStore : List SalesRecord :=
  [⟨"Widget", "Boston", "East", "Jane Doe", 100, ⟨2024, 1, 5⟩⟩,
   ⟨"Widget", "Boston", "East", "Jane Doe", 250, ⟨2024, 2, 10⟩⟩]

/-! ### Helper lemmas -/

theorem answer_question_eq1 (q : String) (store : List SalesRecord) {product city : String}
    (h : matchP1 q = some (product, city)) :
    answer_question q store = template1Answer store product city := by
  unfold answer_question
  rw [h]

theorem answer_question_eq2 (q : String) (store : List SalesRecord) {region : String}
    (h1 : matchP1 q = none) (h : matchP2 q = some region) :
    answer_question q store = template2Answer store region := by
  unfold answer_question
  rw [h1, h]

theorem answer_question_eq3 (q : String) (store : List SalesRecord) {product region : String}
    (h1 : matchP1 q = none) (h2 : matchP2 q = none) (h : matchP3 q = some (product, region)) :
    answer_question q store = template3Answer store product region := by
  unfold answer_question
  rw [h1, h2, h]

theorem answer_question_eq4 (q : String) (store : List SalesRecord) {rep city : String}
    (h1 : matchP1 q = none) (h2 : matchP2 q = none) (h3 : matchP3 q = none)
    (h : matchP4 q = some (rep, city)) :
    answer_question q store = template4Answer store rep city := by
  unfold answer_question
  rw [h1, h2, h3, h]

theorem answer_question_eq_none (q : String) (store : List SalesRecord)
    (h1 : matchP1 q = none) (h2 : matchP2 q = none) (h3 : matchP3 q = none)
    (h4 : matchP4 q = none) :
    answer_question q store = .str cannotAnswerMsg := by
  unfold answer_question
  rw [h1, h2, h3, h4]

theorem maxRow_mem : ∀ {l : List SalesRecord} {m : SalesRecord}, maxRow l = some m → m ∈ l := by
  intro l
  induction l with
  | nil =>
    intro m h
    exact Option.noConfusion h
  | cons r rs ih =>
    intro m h
    cases hm : maxRow rs with
    | none =>
      simp only [maxRow, hm] at h
      cases h
      exact List.mem_cons_self r rs
    | some m2 =>
      simp only [maxRow, hm] at h
      split at h
      · cases h
        exact List.mem_cons_of_mem r (ih hm)
      · cases h
        exact List.mem_cons_self r rs

theorem maxRow_first_argmax :
    ∀ (l : List SalesRecord) (i : Nat) (hi : i < l.length),
      (∀ r ∈ l, r.sales ≤ (l.get ⟨i, hi⟩).sales) →
      (∀ r ∈ l.take i, r.sales < (l.get ⟨i, hi⟩).sales) →
      maxRow l = some (l.get ⟨i, hi⟩) := by
  intro l
  induction l with
  | nil =>
    intro i hi
    exact absurd hi (Nat.not_lt_zero i)
  | cons a rs ih =>
    intro i hi hle hlt
    cases i with
    | zero =>
      show maxRow (a :: rs) = some a
      cases hm : maxRow rs with
      | none => simp only [maxRow, hm]
      | some m =>
        have hmem : m ∈ a :: rs := List.mem_cons_of_mem a (maxRow_mem hm)
        have hle0 : m.sales ≤ a.sales := hle m hmem
        simp only [maxRow, hm]
        rw [if_neg (not_lt.mpr hle0)]
    | succ j =>
      have hj : j < rs.length := by
        simp only [List.length_cons] at hi
        omega
      have hget : (a :: rs).get ⟨j + 1, hi⟩ = rs.get ⟨j, hj⟩ := rfl
      have hle2 : ∀ r ∈ rs, r.sales ≤ (rs.get ⟨j, hj⟩).sales := by
        intro r hr
        rw [← hget]
        exact hle r (List.mem_cons_of_mem a hr)
      have hlt2 : ∀ r ∈ rs.take j, r.sales < (rs.get ⟨j, hj⟩).sales := by
        intro r hr
        rw [← hget]
        refine hlt r ?_
        rw [List.take_succ_cons]
        exact List.mem_cons_of_mem a hr
      have ha : a.sales < (rs.get ⟨j, hj⟩).sales := by
        rw [← hget]
        refine hlt a ?_
        rw [List.take_succ_cons]
        exact List.mem_cons_self a (rs.take j)
      have hmr := ih j hj hle2 hlt2
      simp only [maxRow, hmr]
      rw [if_pos ha, hget]

theorem takeClass_classes {p : Char → Bool} {cs g r : List Char}
    (h : takeClass p cs = some (g, r)) : ∀ c ∈ g, p c := by
  unfold takeClass at h
  split at h
  · exact Option.noConfusion h
  · cases h
    intro c hc
    exact List.mem_takeWhile_imp hc

theorem matchP4Tail_classes {cs : List Char} {city : String}
    (h : matchP4Tail cs = some city) : ∀ c ∈ city.data, isWordSpaceChar c := by
  unfold matchP4Tail at h
  cases hs : stripLitCI " make the highest sale in ".data cs with
  | none =>
    simp only [hs] at h
    exact Option.noConfusion h
  | some r1 =>
    simp only [hs] at h
    cases ht : takeClass isWordSpaceChar r1 with
    | none =>
      simp only [ht] at h
      exact Option.noConfusion h
    | some gr =>
      obtain ⟨g, r2⟩ := gr
      simp only [ht] at h
      split at h
      · cases h
        intro c hc
        exact takeClass_classes ht c hc
      · exact Option.noConfusion h

theorem matchP4Go_classes :
    ∀ (rev suf : List Char), (∀ c ∈ rev, isRepChar c) →
      ∀ {rep city : String}, matchP4Go rev suf = some (rep, city) →
      (∀ c ∈ rep.data, isRepChar c) ∧ (∀ c ∈ city.data, isWordSpaceChar c) := by
  intro rev
  induction rev with
  | nil =>
    intro suf hinv rep city h
    exact Option.noConfusion h
  | cons c rv ih =>
    intro suf hinv rep city h
    cases ht : matchP4Tail suf with
    | some cty =>
      simp only [matchP4Go, ht] at h
      cases h
      constructor
      · intro ch hch
        have hmem : ch ∈ (c :: rv).reverse := hch
        exact hinv ch (List.mem_reverse.mp hmem)
      · exact matchP4Tail_classes ht
    | none =>
      simp only [matchP4Go, ht] at h
      exact ih (c :: suf) (fun d hd => hinv d (List.mem_cons_of_mem c hd)) h

theorem matchP4At_classes {cs : List Char} {rep city : String}
    (h : matchP4At cs = some (rep, city)) :
    (∀ c ∈ rep.data, isRepChar c) ∧ (∀ c ∈ city.data, isWordSpaceChar c) := by
  unfold matchP4At at h
  cases hs : stripLitCI "On what date did ".data cs with
  | none =>
    simp only [hs] at h
    exact Option.noConfusion h
  | some r1 =>
    simp only [hs] at h
    refine matchP4Go_classes _ _ ?_ h
    intro c hc
    exact List.mem_takeWhile_imp (List.mem_reverse.mp hc)

theorem searchAux_some {α : Type} (m : List Char → Option α) :
    ∀ {cs : List Char} {r : α}, searchAux m cs = some r → ∃ ds, m ds = some r := by
  intro cs
  induction cs with
  | nil =>
    intro r h
    exact ⟨[], h⟩
  | cons c cs ih =>
    intro r h
    cases hm : m (c :: cs) with
    | some r2 =>
      simp only [searchAux, hm] at h
      cases h
      exact ⟨c :: cs, hm⟩
    | none =>
      simp only [searchAux, hm] at h
      exact ih h

/-! ### Claim theorems -/

/-- C1: for every question matching template 1, the answer is the sum of the
sales of the rows whose product and city equal the captures, converted to an
integer by truncation toward zero (`pyInt`), and 0 when no row matches. -/
theorem claim1_template1_total_sales (q : String) (store : List SalesRecord)
    (product city : String) (h : matchP1 q = some (product, city)) :
    answer_question q store =
      .int (pyInt (sumSales (filterProductCity store product city))) ∧
    (filterProductCity store product city = [] → answer_question q store = .int 0) := by
  have hd := answer_question_eq1 q store h
  constructor
  · rw [hd]
    rfl
  · intro he
    rw [hd]
    unfold template1Answer
    rw [he]
    with_unfolding_all decide

/-- Witness for C1: the concrete scenario of the specification, 100 + 250. -/
theorem claim1_witness :
    answer_question "What is the total sales of Widget in Boston?" witnessStore = .int 350 := by
  have h := (claim1_template1_total_sales "What is the total sales of Widget in Boston?"
    witnessStore "Widget" "Boston" (by decide)).1
  exact h.trans (by with_unfolding_all decide)

/-- C2: for every question on which template 4 fires (it matches and no
earlier template matches, per the fixed priority order), the answer on an
empty filtered subset is the no-data message, and otherwise the date of the
first row attaining the maximal sales among rows whose rep and city equal
the captures, formatted `YYYY-MM-DD`. -/
theorem claim2_template4_highest_sale_date (q : String) (store : List SalesRecord)
    (rep city : String) (h4 : matchP4 q = some (rep, city))
    (h1 : matchP1 q = none) (h2 : matchP2 q = none) (h3 : matchP3 q = none) :
    (filterRepCity store rep city = [] → answer_question q store = .str noDataMsg) ∧
    (∀ i (hi : i < (filterRepCity store rep city).length),
      (∀ r ∈ filterRepCity store rep city,
        r.sales ≤ ((filterRepCity store rep city).get ⟨i, hi⟩).sales) →
      (∀ r ∈ (filterRepCity store rep city).take i,
        r.sales < ((filterRepCity store rep city).get ⟨i, hi⟩).sales) →
      answer_question q store =
        .str (formatDate (((filterRepCity store rep city).get ⟨i, hi⟩).date))) := by
  have hd := answer_question_eq4 q store h1 h2 h3 h4
  constructor
  · intro he
    rw [hd]
    unfold template4Answer
    rw [he]
    rfl
  · intro i hi hle hlt
    rw [hd]
    unfold template4Answer
    rw [maxRow_first_argmax _ i hi hle hlt]

/-- Witness for C2: Jane Doe's maximal Boston sale (250) is on 2024-02-10,
the second row of the concrete scenario. -/
theorem claim2_witness :
    answer_question "On what date did Jane Doe make the highest sale in Boston?" witnessStore =
      .str "2024-02-10" := by
  have h := (claim2_template4_highest_sale_date
    "On what date did Jane Doe make the highest sale in Boston?" witnessStore "Jane Doe" "Boston"
    (by decide) (by decide) (by decide) (by decide)).2 1 (by decide)
    (by with_unfolding_all decide) (by with_unfolding_all decide)
  exact h.trans (by decide)

/-- C3: for every question on which template 3 fires, the answer on an empty
filtered subset is the integer literal 0 (not an error), and otherwise the
mean of the sales of the rows whose product and region equal the captures,
rounded to 2 decimal places. -/
theorem claim3_template3_average (q : String) (store : List SalesRecord)
    (product region : String) (h : matchP3 q = some (product, region))
    (h1 : matchP1 q = none) (h2 : matchP2 q = none) :
    (filterProductRegion store product region = [] → answer_question q store = .int 0) ∧
    (filterProductRegion store product region ≠ [] →
      answer_question q store =
        .num (round2 (sumSales (filterProductRegion store product region) /
          ((filterProductRegion store product region).length : ℚ)))) := by
  have hd := answer_question_eq3 q store h1 h2 h
  constructor
  · intro he
    rw [hd]
    unfold template3Answer
    rw [he]
    rfl
  · intro hne
    rw [hd]
    unfold template3Answer
    rw [if_neg (fun hem => hne (by simpa using hem))]

/-- Witness for C3: mean of 100 and 250 is 175, and round2 175 = 175. -/
theorem claim3_witness :
    answer_question "What is the average sales for Widget in East?" witnessStore = .num 175 := by
  have h := (claim3_template3_average "What is the average sales for Widget in East?"
    witnessStore "Widget" "East" (by decide) (by decide) (by decide)).2 (by decide)
  exact h.trans (by with_unfolding_all decide)

/-- C4: for every question on which template 2 fires, the answer is the
number of distinct rep values among rows whose region equals the capture,
as an integer, and 0 when no row matches. -/
theorem claim4_template2_distinct_reps (q : String) (store : List SalesRecord)
    (region : String) (h : matchP2 q = some region) (h1 : matchP1 q = none) :
    answer_question q store =
      .int (((filterRegion store region).map SalesRecord.rep).toFinset.card) ∧
    (filterRegion store region = [] → answer_question q store = .int 0) := by
  have hd := answer_question_eq2 q store h1 h
  constructor
  · rw [hd]
    unfold template2Answer nuniqueRep
    rw [List.card_toFinset]
  · intro he
    rw [hd]
    unfold template2Answer
    rw [he]
    rfl

/-- Witness for C4: one distinct rep (Jane Doe) in the East region. -/
theorem claim4_witness :
    answer_question "How many sales reps are there in East?" witnessStore = .int 1 := by
  have h := (claim4_template2_distinct_reps "How many sales reps are there in East?"
    witnessStore "East" (by decide) (by decide)).1
  exact h.trans (by with_unfolding_all decide)

/-- C5: on an empty store, `handle_query` answers the dataset-unavailable
message for every question, bypassing template matching; on a non-empty
store, it returns the engine's answer, always as a normal value. -/
theorem claim5_empty_store_guard :
    (∀ q, handle_query q [] = (.str datasetErrorMsg, email_address)) ∧
    (∀ q store, store ≠ [] →
      handle_query q store = (answer_question q store, email_address)) := by
  constructor
  · intro q
    rfl
  · intro q store hs
    cases store with
    | nil => exact absurd rfl hs
    | cons a as => rfl

/-- Witness for C5: a non-empty store goes through template matching. -/
theorem claim5_witness :
    handle_query "What is the total sales of Widget in Boston?" witnessStore =
      (answer_question "What is the total sales of Widget in Boston?" witnessStore,
        email_address) :=
  claim5_empty_store_guard.2 "What is the total sales of Widget in Boston?" witnessStore
    (by decide)

/-- C6: template words match case-insensitively while captures are compared
against fields exactly and case-sensitively: with the store holding product
"Widget", the capture "widget" is extracted but matches no rows (answer 0),
while changing only the letter case of the template words leaves the
answer at 350. -/
theorem claim6_case_sensitivity :
    matchP1 "What is the total sales of widget in Boston?" = some ("widget", "Boston") ∧
    filterProductCity witnessStore "widget" "Boston" = [] ∧
    answer_question "What is the total sales of widget in Boston?" witnessStore = .int 0 ∧
    answer_question "WHAT IS THE TOTAL SALES OF Widget IN Boston?" witnessStore = .int 350 ∧
    answer_question "what is the total sales of Widget in Boston?" witnessStore = .int 350 := by
  refine ⟨by decide, by decide, ?_, ?_, ?_⟩ <;> with_unfolding_all decide

/-- C7: the four templates are evaluated in the fixed priority order
1, 2, 3, 4 and the first structural match determines the answer, with no
condition on whether any later template would also match. -/
theorem claim7_priority_order (q : String) (store : List SalesRecord) :
    (∀ product city, matchP1 q = some (product, city) →
      answer_question q store = template1Answer store product city) ∧
    (matchP1 q = none → ∀ region, matchP2 q = some region →
      answer_question q store = template2Answer store region) ∧
    (matchP1 q = none → matchP2 q = none → ∀ product region,
      matchP3 q = some (product, region) →
      answer_question q store = template3Answer store product region) ∧
    (matchP1 q = none → matchP2 q = none → matchP3 q = none → ∀ rep city,
      matchP4 q = some (rep, city) →
      answer_question q store = template4Answer store rep city) := by
  refine ⟨?_, ?_, ?_, ?_⟩
  · intro product city h
    exact answer_question_eq1 q store h
  · intro h1 region h
    exact answer_question_eq2 q store h1 h
  · intro h1 h2 product region h
    exact answer_question_eq3 q store h1 h2 h
  · intro h1 h2 h3 rep city h
    exact answer_question_eq4 q store h1 h2 h3 h

/-- Witness for C7: template 1 fires on the total-sales question. -/
theorem claim7_witness :
    answer_question "What is the total sales of Widget in Boston?" witnessStore =
      template1Answer witnessStore "Widget" "Boston" :=
  (claim7_priority_order "What is the total sales of Widget in Boston?" witnessStore).1
    "Widget" "Boston" (by decide)

/-- C8: a question matching none of the four patterns gets the fixed
not-understood message, as a normal answer value, for every store. -/
theorem claim8_unmatched_question (q : String) (store : List SalesRecord)
    (h1 : matchP1 q = none) (h2 : matchP2 q = none) (h3 : matchP3 q = none)
    (h4 : matchP4 q = none) :
    answer_question q store = .str cannotAnswerMsg :=
  answer_question_eq_none q store h1 h2 h3 h4

/-- Witness for C8: the weather question of the specification. -/
theorem claim8_witness :
    answer_question "What is the weather today?" witnessStore = .str cannotAnswerMsg :=
  claim8_unmatched_question "What is the weather today?" witnessStore
    (by decide) (by decide) (by decide) (by decide)

/-- Counterexample to C9: the city capture of pattern 4 is `[\w\s]+` in the
source, so a template-4 question whose city slot contains a space DOES match
the template, with the space inside the captured city. -/
theorem claim9_counterexample :
    matchP4 "On what date did Jane make the highest sale in New York?" =
      some ("Jane", "New York") ∧
    ' ' ∈ "New York".data := by
  exact ⟨by decide, by decide⟩

/-- C9 as amended: in template 4 the rep capture admits word characters,
whitespace, periods, apostrophes and hyphens, and the city capture admits
word characters AND whitespace; a city slot containing a space matches. -/
theorem claim9_capture_classes :
    (∀ q rep city, matchP4 q = some (rep, city) →
      (∀ c ∈ rep.data, isRepChar c) ∧ (∀ c ∈ city.data, isWordSpaceChar c)) ∧
    matchP4 "On what date did Mary Ann make the highest sale in San Francisco?" =
      some ("Mary Ann", "San Francisco") := by
  constructor
  · intro q rep city h
    obtain ⟨ds, hds⟩ := searchAux_some matchP4At h
    exact matchP4At_classes hds
  · decide

/-- Witness for C9: the space of the captured city "New York" lies in the
city class of pattern 4. -/
theorem claim9_witness : isWordSpaceChar ' ' = true :=
  (claim9_capture_classes.1 "On what date did Jane make the highest sale in New York?"
    "Jane" "New York" (by decide)).2 ' ' (by decide)

/-- C10: on a non-empty store the engine is a total function into well-typed
answers; in particular every empty-filter case yields its template's default
(0, 0, 0, no-data message) and an unmatched question the not-understood
message, never a fault. -/
theorem claim10_no_fault_defaults (q : String) (store : List SalesRecord)
    (hs : store ≠ []) :
    (∀ product city, matchP1 q = some (product, city) →
      filterProductCity store product city = [] → answer_question q store = .int 0) ∧
    (matchP1 q = none → ∀ region, matchP2 q = some region →
      filterRegion store region = [] → answer_question q store = .int 0) ∧
    (matchP1 q = none → matchP2 q = none → ∀ product region,
      matchP3 q = some (product, region) →
      filterProductRegion store product region = [] →
      answer_question q store = .int 0) ∧
    (matchP1 q = none → matchP2 q = none → matchP3 q = none → ∀ rep city,
      matchP4 q = some (rep, city) →
      filterRepCity store rep city = [] → answer_question q store = .str noDataMsg) ∧
    (matchP1 q = none → matchP2 q = none → matchP3 q = none → matchP4 q = none →
      answer_question q store = .str cannotAnswerMsg) := by
  refine ⟨?_, ?_, ?_, ?_, ?_⟩
  · intro product city h he
    rw [answer_question_eq1 q store h]
    unfold template1Answer
    rw [he]
    with_unfolding_all decide
  · intro h1 region h he
    rw [answer_question_eq2 q store h1 h]
    unfold template2Answer
    rw [he]
    rfl
  · intro h1 h2 product region h he
    rw [answer_question_eq3 q store h1 h2 h]
    unfold template3Answer
    rw [he]
    rfl
  · intro h1 h2 h3 rep city h he
    rw [answer_question_eq4 q store h1 h2 h3 h]
    unfold template4Answer
    rw [he]
    rfl
  · intro h1 h2 h3 h4
    exact answer_question_eq_none q store h1 h2 h3 h4

/-- Witness for C10: a well-formed total-sales question whose city matches
no row yields 0 on the non-empty concrete store. -/
theorem claim10_witness :
    answer_question "What is the total sales of Widget in Paris?" witnessStore = .int 0 :=
  (claim10_no_fault_defaults "What is the total sales of Widget in Paris?" witnessStore
    (by decide)).1 "Widget" "Paris" (by decide) (by decide)
